import Mathlib

/-!
Verification of the wardrowbe notification scheduling and delivery core
(`backend/app/workers/notifications.py`, `backend/app/utils/redis_lock.py`)
against its design specification.

The Python workers are shallowly embedded: database state is passed
explicitly as lists of records, timestamps are UTC epoch seconds (`Nat`,
with comparisons written additively so they agree with integer-valued
datetime arithmetic), and the external effects (job queue, Redis lock,
channel providers, dispatcher) are oracles passed in as parameters.
-/

namespace Wardrowbe

/-! ## Time

`datetime.now(UTC)` is modelled as an epoch-second count.  UTC has no DST,
so Python's `weekday()` (Monday = 0; 1970-01-01 was a Thursday, weekday 3)
and the minute-of-day of a datetime are pure functions of the epoch second.
-/

def weekdayOf (t : Nat) : Nat := (t / 86400 + 3) % 7

def minuteOfDay (t : Nat) : Nat := t % 86400 / 60

/-! ## Data model (spec section 3, as used by the worker code) -/

structure Schedule where
  id : Nat
  user_id : Nat
  day_of_week : Nat
  notification_time_hour : Nat
  notification_time_minute : Nat
  occasion : String
  enabled : Bool
  notify_day_before : Bool
  last_triggered_at : Option Nat
deriving DecidableEq, Repr

inductive NotificationStatus where
  | pending
  | retrying
  | sent
  | failed
deriving DecidableEq, Repr

structure NotificationPayload where
  type : String
  item_count : Nat
  title : String
  body : String
deriving DecidableEq, Repr

structure Notification where
  id : Nat
  user_id : Nat
  channel : String
  status : NotificationStatus
  attempts : Nat
  max_attempts : Nat
  last_attempt_at : Option Nat
  sent_at : Option Nat
  error_message : Option String
  payload : NotificationPayload
  created_at : Nat
deriving DecidableEq, Repr

structure NotificationSettings where
  user_id : Nat
  channel : String
  enabled : Bool
deriving DecidableEq, Repr

structure ClothingItem where
  id : Nat
  user_id : Nat
  name : Option String
  type : String
  needs_wash : Bool
  is_archived : Bool
deriving DecidableEq, Repr

/-! ## Trigger Scanner (`check_scheduled_notifications`)

The code computes the current UTC day and minute, selects enabled
schedules whose day matches (today, or tomorrow for `notify_day_before`),
drops candidates outside the one-minute window or triggered within the
last hour, stamps `last_triggered_at = now` on the survivors, commits, and
only then enqueues one follow-up job per survivor with an idempotent job
id.  Enqueue failures are counted, never re-raised, and never undo the
committed markers.
-/

def schedMinutes (s : Schedule) : Nat :=
  s.notification_time_hour * 60 + s.notification_time_minute

/-- Day selection of the SQL query (lines 253-269):
`enabled AND ((NOT notify_day_before AND day_of_week = today) OR
(notify_day_before AND day_of_week = tomorrow))`. -/
def selectedPred (now : Nat) (s : Schedule) : Bool :=
  s.enabled &&
    ((!s.notify_day_before && s.day_of_week == weekdayOf now) ||
     (s.notify_day_before && s.day_of_week == (weekdayOf now + 1) % 7))

/-- Line 279: `if abs(schedule_minutes - current_minutes) > 1: continue`. -/
def passesWindow (now : Nat) (s : Schedule) : Bool :=
  !(decide (1 < (((schedMinutes s : Int) - (minuteOfDay now : Int)).natAbs)))

/-- Lines 283-284: skip when `last_triggered_at >= now - 1 hour`
(a `None` marker is falsy in Python, so it never causes a skip). -/
def recentlyTriggered (now : Nat) (s : Schedule) : Bool :=
  match s.last_triggered_at with
  | none => false
  | some t => decide (now ≤ t + 3600)

/-- Line 308: `minute_key = now_utc.strftime("%Y%m%d%H%M")`.  The strftime
string of a UTC datetime truncated to the minute is an injective function
of the epoch minute; it is modelled by printing `now / 60`. -/
def minuteKey (now : Nat) : String := toString (now / 60)

/-- Line 316: `_job_id=f"sched:{schedule.id}:{minute_key}"`. -/
def schedJobId (sid : Nat) (now : Nat) : String :=
  "sched:" ++ toString sid ++ ":" ++ minuteKey now

/-- Observable events of one scanner tick, in program order. -/
inductive TickEvent where
  | commit
  | enqueue (sid : Nat) (jobId : String) (ok : Bool)
deriving DecidableEq, Repr

def TickEvent.isCommit : TickEvent → Bool
  | .commit => true
  | _ => false

structure TickOutcome where
  db : List Schedule
  toEnqueue : List Schedule
  events : List TickEvent
  checked : Nat
  enqueued : Nat
  enqueueFailures : Nat
deriving Repr

/-- One tick of the Trigger Scanner (lines 243-326).  `db` is the schedule
table; `enqOk sid` tells whether the queue accepts the enqueue call for
schedule `sid` (line 312) or raises.  The returned `db` is the table after
the commit of line 302; `events` records the commit and every enqueue
attempt in program order. -/
def check_scheduled_notifications (now : Nat) (db : List Schedule)
    (enqOk : Nat → Bool) : TickOutcome :=
  let schedules := db.filter (selectedPred now)
  let toEnqueue := schedules.filter
    (fun s => passesWindow now s && !recentlyTriggered now s)
  let newDb := db.map (fun s =>
    if selectedPred now s && (passesWindow now s && !recentlyTriggered now s) then
      { s with last_triggered_at := some now }
    else s)
  let enqEvents := toEnqueue.map
    (fun s => TickEvent.enqueue s.id (schedJobId s.id now) (enqOk s.id))
  { db := newDb
    toEnqueue := toEnqueue
    events := (if toEnqueue.isEmpty then [] else [TickEvent.commit]) ++ enqEvents
    checked := schedules.length
    enqueued := toEnqueue.length
    enqueueFailures := (toEnqueue.filter (fun s => !enqOk s.id)).length }

/-- Claim-side due test, written from the claim's words: enabled; day
matches today (or tomorrow when `notify_day_before`); the absolute
difference between scheduled and current minute-of-day is at most 1; and
`last_triggered_at` is null or more than one hour before now. -/
def spec_due (now : Nat) (s : Schedule) : Bool :=
  s.enabled &&
  (if s.notify_day_before then s.day_of_week == (weekdayOf now + 1) % 7
   else s.day_of_week == weekdayOf now) &&
  (decide ((((schedMinutes s : Int) - (minuteOfDay now : Int)).natAbs) ≤ 1)) &&
  (match s.last_triggered_at with
   | none => true
   | some t => decide (t + 3600 < now))

/-- True when every commit event comes before every enqueue event: after
the leading run of commits, no commit remains. -/
def commitsPrecedeEnqueues (es : List TickEvent) : Bool :=
  !((es.dropWhile TickEvent.isCommit).any TickEvent.isCommit)

/-! ## Retry Manager (`retry_failed_notifications`, lines 81-154)

The dispatcher's delivery outcome (`notification_service.DeliveryStatus`)
is consumed by the worker only through the test `status == SENT`, so it is
modelled as a binary status together with the optional error string. -/

inductive DeliveryStatus where
  | sent
  | failed
deriving DecidableEq, Repr

structure DeliveryResult where
  status : DeliveryStatus
  error : Option String
deriving DecidableEq, Repr

/-- Python `x or default` for an optional string: `None` and `""` are
falsy. -/
def pyOr (o : Option String) (d : String) : String :=
  match o with
  | some e => if e = "" then d else e
  | none => d

/-- The query of lines 87-94: `status == retrying AND attempts < max_attempts`. -/
def retryCandidates (db : List Notification) : List Notification :=
  db.filter (fun n =>
    n.status == NotificationStatus.retrying && n.attempts < n.max_attempts)

/-- Lines 111-131, the body run while the per-record lock is held: re-read
the record (`n` is the refreshed state), abandon if no longer retrying,
otherwise bump `attempts`, stamp `last_attempt_at`, send, and settle the
status from the delivery result `r`. -/
def retryLocked (now : Nat) (n : Notification) (r : DeliveryResult) : Notification :=
  if n.status ≠ NotificationStatus.retrying then n
  else
    let n1 := { n with attempts := n.attempts + 1, last_attempt_at := some now }
    if r.status = DeliveryStatus.sent then
      { n1 with status := NotificationStatus.sent, sent_at := some now }
    else if n1.max_attempts ≤ n1.attempts then
      { n1 with status := NotificationStatus.failed,
                error_message := some (pyOr r.error "Max retries exceeded") }
    else
      { n1 with error_message := r.error }

inductive LockResult where
  | acquired
  | contended
deriving DecidableEq, Repr

inductive RetryOutcome where
  | skippedLock
  | processed (n' : Notification)
deriving DecidableEq, Repr

/-- One iteration of the retry loop (lines 105-138): a contended
non-blocking lock (`TimeoutError`, lines 133-138) skips the record;
otherwise the locked body runs on the refreshed record. -/
def retryRecord (now : Nat) (lock : LockResult) (refreshed : Notification)
    (send : DeliveryResult) : RetryOutcome :=
  match lock with
  | .contended => .skippedLock
  | .acquired => .processed (retryLocked now refreshed send)

/-- The whole retry loop.  `lockOf` is the per-record lock oracle,
`refreshOf` the state re-read inside the lock (another worker may have
mutated the row), `sendOf` the dispatcher outcome for the refreshed row. -/
def retryLoop (now : Nat) (lockOf : Notification → LockResult)
    (refreshOf : Notification → Notification)
    (sendOf : Notification → DeliveryResult) :
    List Notification → List RetryOutcome
  | [] => []
  | n :: rest =>
      retryRecord now (lockOf n) (refreshOf n) (sendOf (refreshOf n)) ::
        retryLoop now lockOf refreshOf sendOf rest

/-! ## Job exception envelopes (spec section 7)

Each worker function wraps its body in `try/except`.  The body is modelled
as `Except String α`: `Except.error e` stands for an unexpected exception
`e` escaping the body (the benign skip paths — `ValueError`,
`TimeoutError` — are ordinary `ok` results of the real code and are
modelled separately above).  The envelope records whether the session was
rolled back and whether the job re-raised or returned a value. -/

inductive JobTermination (α : Type) where
  | returned (v : α)
  | raised (e : String)
deriving DecidableEq, Repr

def JobTermination.isRaised : JobTermination α → Bool
  | .raised _ => true
  | _ => false

structure EnvelopeResult (α : Type) where
  rolledBack : Bool
  term : JobTermination α
deriving DecidableEq, Repr

inductive ScannerReturn where
  | stats (checked enqueued : Nat)
  | errorDict (e : String)
deriving DecidableEq, Repr

/-- Lines 328-332 of `check_scheduled_notifications`: `except Exception as
e: return {"error": str(e)}` — no rollback, no re-raise. -/
def scanner_envelope (body : Except String (Nat × Nat)) :
    EnvelopeResult ScannerReturn :=
  match body with
  | .ok (c, q) => ⟨false, .returned (.stats c q)⟩
  | .error e => ⟨false, .returned (.errorDict e)⟩

inductive RetryReturn where
  | retried (n : Nat)
  | retriedError (n : Nat) (e : String)
deriving DecidableEq, Repr

/-- Lines 149-152 of `retry_failed_notifications`: `except Exception as e:
await db.rollback(); return {"retried": 0, "error": str(e)}`. -/
def retry_envelope (body : Except String Nat) : EnvelopeResult RetryReturn :=
  match body with
  | .ok n => ⟨false, .returned (.retried n)⟩
  | .error e => ⟨true, .returned (.retriedError 0 e)⟩

/-- `reset_schedule_trigger` (lines 34-49): select the schedule by id and,
when found, null its `last_triggered_at` and commit. -/
def reset_schedule_trigger (db : List Schedule) (schedId : Nat) : List Schedule :=
  db.map (fun s =>
    if s.id == schedId then { s with last_triggered_at := none } else s)

inductive ProcessReturn where
  | sentOutfit (outfitId : Nat)
  | skipped (reason : String)
deriving DecidableEq, Repr

/-- The exception envelope of `process_scheduled_notification`
(lines 230-240): a `ValueError` from the recommendation engine is already
an `ok (skipped _)` body result; an unexpected exception rolls the session
back, defensively resets the schedule's dedup marker when the outer job
envelope is on its final attempt (`ctx["job_try"] >= 3`), and re-raises.
Returns the envelope outcome together with the schedule table it leaves
behind. -/
def process_envelope (jobTry : Nat) (db : List Schedule) (schedId : Nat)
    (body : Except String ProcessReturn) :
    EnvelopeResult ProcessReturn × List Schedule :=
  match body with
  | .ok v => (⟨false, .returned v⟩, db)
  | .error e =>
      (⟨true, .raised e⟩,
       if 3 ≤ jobTry then reset_schedule_trigger db schedId else db)

/-! ## Batch Reminder Job (`check_wash_reminders`, lines 335-491) -/

/-- Lines 390-400: an existing notification for the user whose payload
type is `"wash_reminder"` and whose `created_at` is within the last day
suppresses a new reminder. -/
def hasRecentWashReminder (now : Nat) (notifs : List Notification) (uid : Nat) : Bool :=
  notifs.any (fun n =>
    n.user_id == uid && n.payload.type == "wash_reminder" &&
      decide (now ≤ n.created_at + 86400))

/-- Lines 403-407: names of the first five items, then `" and k more"`. -/
def washSummary (items : List ClothingItem) : String :=
  let names := (items.take 5).map (fun i => pyOr i.name i.type)
  let base := String.intercalate ", " names
  if 5 < items.length then
    base ++ " and " ++ toString (items.length - 5) ++ " more"
  else base

def washTitle : String := "Laundry Reminder"

/-- Line 410. -/
def washBody (items : List ClothingItem) : String :=
  toString items.length ++ " item" ++ (if items.length ≠ 1 then "s" else "") ++
    " need washing: " ++ washSummary items

/-- Whether the channel kind is one the loop of lines 415-455 can send
through; any other kind leaves `sent`/`sent_channel` untouched. -/
def knownKind (c : NotificationSettings) : Bool :=
  c.channel == "ntfy" || c.channel == "email" || c.channel == "expo_push"

/-- The channel fallback loop (lines 412-459) over the mutable state
(`sent`, `sent_channel`, attempts made): each known-kind channel is tried
(`sendOk` is the provider outcome; a provider exception is caught at line
458 and counts as failure), `sent_channel` is overwritten on every
attempt, and the loop stops at the first success. -/
def washSendLoop (sendOk : NotificationSettings → Bool) :
    List NotificationSettings → Bool → String → Nat → Bool × String × Nat
  | [], sent, ch, tries => (sent, ch, tries)
  | c :: rest, sent, ch, tries =>
      let next :=
        if knownKind c then (sendOk c, c.channel, tries + 1) else (sent, ch, tries)
      if next.1 then next else washSendLoop sendOk rest next.1 next.2.1 next.2.2

/-- The enabled channels of a user (query of lines 377-385). -/
def enabledChannels (settings : List NotificationSettings) (uid : Nat) :
    List NotificationSettings :=
  settings.filter (fun c => c.user_id == uid && c.enabled)

/-- Per-owner body of `_check_wash_reminders_inner` (lines 374-478): skip
owners without enabled channels, skip owners already reminded within 24
hours, otherwise run the fallback loop and persist exactly one record.
Returns the records added for this owner and the number of channel send
attempts made.  `attempts`, `max_attempts`, `last_attempt_at` and
`created_at` of the new record take the model's database defaults
(0, 3, null, insertion time). -/
def wash_user (now : Nat) (settings : List NotificationSettings)
    (notifs : List Notification) (uid : Nat) (items : List ClothingItem)
    (sendOk : NotificationSettings → Bool) : List Notification × Nat :=
  let channels := enabledChannels settings uid
  if channels.isEmpty then ([], 0)
  else if hasRecentWashReminder now notifs uid then ([], 0)
  else
    let r := washSendLoop sendOk channels false "unknown" 0
    ([{ id := 0
        user_id := uid
        channel := r.2.1
        status := if r.1 then NotificationStatus.sent else NotificationStatus.failed
        attempts := 0
        max_attempts := 3
        last_attempt_at := none
        sent_at := if r.1 then some now else none
        error_message := if r.1 then none else some "All channels failed"
        payload := { type := "wash_reminder", item_count := items.length,
                     title := washTitle, body := washBody items }
        created_at := now }], r.2.2)

structure WashReturn where
  notified : Nat
  skipped : Option String
deriving DecidableEq, Repr

/-- The global-lock wrapper `check_wash_reminders` (lines 335-344): when
the non-blocking `wash-reminders-cron` lock is contended the resulting
`TimeoutError` is caught and the job returns `{"notified": 0, "skipped":
"lock_held"}`; otherwise the inner job's return value passes through. -/
def check_wash_reminders (lock : LockResult) (inner : WashReturn) :
    JobTermination WashReturn :=
  match lock with
  | .acquired => .returned inner
  | .contended => .returned { notified := 0, skipped := some "lock_held" }

/-! ## Lock Manager (`redis_lock.distributed_lock`, lines 24-40) -/

inductive ReleaseResult where
  | ok
  | notOwned
  | failed (e : String)
deriving DecidableEq, Repr

inductive LockEvent where
  | releaseAttempt
  | warnLogged
deriving DecidableEq, Repr

/-- The `finally` block (lines 34-39): release is attempted only when the
lock was acquired; `LockNotOwnedError` (the lock expired and was
reacquired elsewhere) is swallowed with a warning; any other release
failure replaces the in-flight result, as a `finally`-raised exception
does. -/
def releaseStep (rel : ReleaseResult) (inflight : Except String α) :
    Except String α × List LockEvent :=
  match rel with
  | .ok => (inflight, [.releaseAttempt])
  | .notOwned => (inflight, [.releaseAttempt, .warnLogged])
  | .failed e => (.error e, [.releaseAttempt])

/-- The `distributed_lock` context manager: `acquired` is the result of
`lock.acquire()`, `rel` what `lock.release()` would do, `body` the guarded
section's outcome.  A failed acquisition raises
`TimeoutError(f"Could not acquire lock: {key}")` and, `acquired` being
false, never reaches the release call. -/
def distributed_lock (key : String) (acquired : Bool) (rel : ReleaseResult)
    (body : Except String α) : Except String α × List LockEvent :=
  if acquired then releaseStep rel body
  else (.error ("Could not acquire lock: " ++ key), [])

/-! ## Concrete records used by witnesses

`374400` is Monday 1970-01-05 08:00:00 UTC (weekday 0, minute 480);
`431940` is Monday 23:59:00 UTC of the same day (minute 1439). -/

def sMidnight : Schedule :=
  { id := 2, user_id := 10, day_of_week := 0, notification_time_hour := 0,
    notification_time_minute := 0, occasion := "casual", enabled := true,
    notify_day_before := false, last_triggered_at := none }

def sTriggered : Schedule :=
  { id := 1, user_id := 10, day_of_week := 0, notification_time_hour := 8,
    notification_time_minute := 0, occasion := "casual", enabled := true,
    notify_day_before := false, last_triggered_at := some 374400 }

def nRetrying : Notification :=
  { id := 5, user_id := 10, channel := "ntfy",
    status := NotificationStatus.retrying, attempts := 2, max_attempts := 3,
    last_attempt_at := none, sent_at := none, error_message := some "old",
    payload := { type := "outfit", item_count := 0, title := "t", body := "b" },
    created_at := 0 }

def itemDirty : ClothingItem :=
  { id := 1, user_id := 7, name := none, type := "shirt",
    needs_wash := true, is_archived := false }

def chNtfy : NotificationSettings :=
  { user_id := 7, channel := "ntfy", enabled := true }

/-! ## Helper lemmas -/

theorem not_decide_lt_one (x : Nat) : (!decide (1 < x)) = decide (x ≤ 1) := by
  cases h : decide (1 < x) <;> simp_all

theorem not_decide_le (a b : Nat) : (!decide (a ≤ b)) = decide (b < a) := by
  cases h : decide (a ≤ b) <;> simp_all

/-- The composite candidate condition the scanner applies (day selection of
the query, then the window and dedup checks of the loop) agrees pointwise
with the claim-side due test. -/
theorem due_eq_spec (now : Nat) (s : Schedule) :
    ((passesWindow now s && !recentlyTriggered now s) && selectedPred now s)
      = spec_due now s := by
  unfold passesWindow recentlyTriggered selectedPred spec_due
  cases hb : s.notify_day_before <;>
    cases ht : s.last_triggered_at <;>
      simp [not_decide_lt_one, not_decide_le, Nat.lt_iff_add_one_le] <;>
        simp [Bool.and_comm, Bool.and_assoc, Bool.and_left_comm]

/-- An enqueue-event list contains no commit event. -/
theorem anyCommit_map_false (now : Nat) (enqOk : Nat → Bool) (l : List Schedule) :
    ((l.map (fun s => TickEvent.enqueue s.id (schedJobId s.id now) (enqOk s.id))).any
        TickEvent.isCommit) = false := by
  induction l with
  | nil => rfl
  | cons s t ih => simp [TickEvent.isCommit, ih]

/-- A scanner event trace — an optional leading commit followed by enqueue
events — always keeps every commit before every enqueue. -/
theorem commitsPrecede_aux (now : Nat) (enqOk : Nat → Bool) (te : List Schedule) :
    commitsPrecedeEnqueues ((if te.isEmpty then [] else [TickEvent.commit]) ++
        te.map (fun s => TickEvent.enqueue s.id (schedJobId s.id now) (enqOk s.id)))
      = true := by
  cases te with
  | nil => rfl
  | cons s t =>
      simp only [commitsPrecedeEnqueues, List.isEmpty_cons, List.map_cons,
        List.cons_append, List.nil_append, List.dropWhile]
      simp [TickEvent.isCommit, anyCommit_map_false]

/-! ## Claims -/

/-- Claim C1: in every Trigger Scanner tick the commit of the
`last_triggered_at` markers comes before every enqueue attempt, and enqueue
failures (`enqOk` returning false for any subset of schedules) change
neither the committed schedule table nor the reported enqueued count. -/
theorem C1_commit_before_enqueue (now : Nat) (db : List Schedule)
    (enqOk : Nat → Bool) :
    commitsPrecedeEnqueues (check_scheduled_notifications now db enqOk).events = true ∧
    (check_scheduled_notifications now db enqOk).db
      = (check_scheduled_notifications now db (fun _ => true)).db ∧
    (check_scheduled_notifications now db enqOk).enqueued
      = (check_scheduled_notifications now db (fun _ => true)).enqueued := by
  refine ⟨?_, rfl, rfl⟩
  exact commitsPrecede_aux now enqOk _

/-- Claim C2: a schedule is selected for triggering, and stamped with
`last_triggered_at = now`, exactly when it is enabled, its day-of-week
matches today (tomorrow when `notify_day_before`), its minute-of-day is
within 1 of the current minute, and its dedup marker is null or more than
one hour old. -/
theorem C2_trigger_decision (now : Nat) (db : List Schedule) (enqOk : Nat → Bool) :
    (check_scheduled_notifications now db enqOk).toEnqueue
      = db.filter (spec_due now) ∧
    (check_scheduled_notifications now db enqOk).db
      = db.map (fun s =>
          if spec_due now s then { s with last_triggered_at := some now } else s) := by
  constructor
  · show List.filter _ (List.filter _ db) = _
    rw [List.filter_filter]
    exact List.filter_congr (fun s _ => due_eq_spec now s)
  · show List.map _ db = _
    refine List.map_congr_left (fun s _ => ?_)
    rw [show (selectedPred now s && (passesWindow now s && !recentlyTriggered now s))
          = spec_due now s by rw [← due_eq_spec now s]; cases selectedPred now s <;>
            cases passesWindow now s <;> cases recentlyTriggered now s <;> rfl]

/-- Claim C4: the idempotent job id is a function of the schedule id and
the tick time truncated to the minute, so two scans in the same UTC minute
build identical keys. -/
theorem C4_idempotency_key (sid now₁ now₂ : Nat) (h : now₁ / 60 = now₂ / 60) :
    schedJobId sid now₁ = schedJobId sid now₂ := by
  unfold schedJobId minuteKey
  rw [h]

theorem C4_witness : schedJobId 42 374400 = schedJobId 42 374459 :=
  C4_idempotency_key 42 374400 374459 (by decide)

/-- Claim C10: the due test compares plain minute-of-day values with no
modulo-1440 wrap, so a schedule at 00:00 evaluated at a 23:59 tick (or at
23:59 evaluated at a 00:00 tick) is never a trigger candidate, although
the clock instants are a minute apart. -/
theorem C10_no_midnight_wrap (now : Nat) (db : List Schedule) (enqOk : Nat → Bool)
    (s : Schedule)
    (h : (schedMinutes s = 0 ∧ minuteOfDay now = 1439) ∨
         (schedMinutes s = 1439 ∧ minuteOfDay now = 0)) :
    s ∉ (check_scheduled_notifications now db enqOk).toEnqueue := by
  intro hmem
  have hp := (List.mem_filter.mp hmem).2
  have hw : passesWindow now s = true := ((Bool.and_eq_true _ _).mp hp).1
  unfold passesWindow at hw
  rcases h with ⟨h1, h2⟩ | ⟨h1, h2⟩ <;> rw [h1, h2] at hw <;> simp at hw

theorem C10_witness :
    (check_scheduled_notifications 431940 [sMidnight] (fun _ => true)).toEnqueue
      = [] := by
  have h := C10_no_midnight_wrap 431940 [sMidnight] (fun _ => true) sMidnight
    (Or.inl ⟨rfl, rfl⟩)
  revert h
  decide

/-- Claim C3: with the per-record lock held, a record re-read as no longer
`retrying` is left unmutated; otherwise `attempts` grows by exactly one,
`last_attempt_at` is stamped, and exactly one of the three outcomes holds:
sent with `sent_at` on delivery success, still retrying with the error
recorded while below `max_attempts`, failed with the final error at or
above `max_attempts`. -/
theorem C3_retry_state_machine (now : Nat) (n : Notification) (r : DeliveryResult) :
    (n.status ≠ NotificationStatus.retrying → retryLocked now n r = n) ∧
    (n.status = NotificationStatus.retrying →
      (retryLocked now n r).attempts = n.attempts + 1 ∧
      (retryLocked now n r).last_attempt_at = some now ∧
      (r.status = DeliveryStatus.sent →
        (retryLocked now n r).status = NotificationStatus.sent ∧
        (retryLocked now n r).sent_at = some now) ∧
      (r.status ≠ DeliveryStatus.sent → n.attempts + 1 < n.max_attempts →
        (retryLocked now n r).status = NotificationStatus.retrying ∧
        (retryLocked now n r).error_message = r.error) ∧
      (r.status ≠ DeliveryStatus.sent → n.max_attempts ≤ n.attempts + 1 →
        (retryLocked now n r).status = NotificationStatus.failed ∧
        (retryLocked now n r).error_message
          = some (pyOr r.error "Max retries exceeded"))) := by
  constructor
  · intro h
    simp [retryLocked, h]
  · intro h
    by_cases hs : r.status = DeliveryStatus.sent
    · simp [retryLocked, h, hs]
    · by_cases hm : n.max_attempts ≤ n.attempts + 1
      · simp [retryLocked, h, hs, hm]
      · simp [retryLocked, h, hs, hm]

/-- Claim C5, counterexample: an unexpected error inside the Trigger
Scanner is swallowed — the job neither rolls the session back nor
re-raises; it returns an error dictionary.  The Retry Manager likewise
returns instead of re-raising. -/
theorem C5_counterexample :
    (scanner_envelope (Except.error "boom")).rolledBack = false ∧
    (scanner_envelope (Except.error "boom")).term
      = JobTermination.returned (ScannerReturn.errorDict "boom") ∧
    (scanner_envelope (Except.error "boom")).term.isRaised = false ∧
    (retry_envelope (Except.error "boom")).term.isRaised = false :=
  ⟨rfl, rfl, rfl, rfl⟩

/-- Claim C5, amended: only the per-schedule processing job rolls back and
re-raises an unexpected error; the Retry Manager rolls back but returns an
error result, and the Trigger Scanner neither rolls back nor re-raises,
returning an error result. -/
theorem C5_amended_envelopes (e : String) (jobTry : Nat) (db : List Schedule)
    (sid : Nat) :
    (process_envelope jobTry db sid (Except.error e)).1.rolledBack = true ∧
    (process_envelope jobTry db sid (Except.error e)).1.term
      = JobTermination.raised e ∧
    (retry_envelope (Except.error e)).rolledBack = true ∧
    (retry_envelope (Except.error e)).term
      = JobTermination.returned (RetryReturn.retriedError 0 e) ∧
    (scanner_envelope (Except.error e)).rolledBack = false ∧
    (scanner_envelope (Except.error e)).term
      = JobTermination.returned (ScannerReturn.errorDict e) :=
  ⟨rfl, rfl, rfl, rfl, rfl, rfl⟩

/-- Claim C6, counterexample: an owner of a qualifying item with no
enabled notification channel and no recent reminder gets no Notification
record at all from the wash-reminder run — not exactly one. -/
theorem C6_counterexample :
    wash_user 1000 [] [] 7 [itemDirty] (fun _ => true) = ([], 0) ∧
    hasRecentWashReminder 1000 [] 7 = false :=
  ⟨rfl, rfl⟩

/-- Claim C6, amended: for each owner of qualifying items who has at least
one enabled notification channel, a wash-reminder record created within
the last 24 hours suppresses the run entirely (no record, no send);
otherwise exactly one record is persisted regardless of delivery outcome:
status sent with `sent_at` on success, status failed with error message
"All channels failed" otherwise. -/
theorem C6_amended_wash_dedup (now : Nat) (settings : List NotificationSettings)
    (notifs : List Notification) (uid : Nat) (items : List ClothingItem)
    (sendOk : NotificationSettings → Bool)
    (hch : (enabledChannels settings uid).isEmpty = false) :
    (hasRecentWashReminder now notifs uid = true →
        wash_user now settings notifs uid items sendOk = ([], 0)) ∧
    (hasRecentWashReminder now notifs uid = false →
      (wash_user now settings notifs uid items sendOk).1.length = 1 ∧
      ∀ nw ∈ (wash_user now settings notifs uid items sendOk).1,
        nw.user_id = uid ∧ nw.payload.type = "wash_reminder" ∧ nw.created_at = now ∧
        ((washSendLoop sendOk (enabledChannels settings uid) false "unknown" 0).1
            = true →
          nw.status = NotificationStatus.sent ∧ nw.sent_at = some now ∧
          nw.error_message = none) ∧
        ((washSendLoop sendOk (enabledChannels settings uid) false "unknown" 0).1
            = false →
          nw.status = NotificationStatus.failed ∧ nw.sent_at = none ∧
          nw.error_message = some "All channels failed")) := by
  constructor
  · intro hr
    simp [wash_user, hch, hr]
  · intro hr
    constructor
    · simp [wash_user, hch, hr]
    · intro nw hnw
      simp only [wash_user, hch, hr, Bool.false_eq_true, if_false,
        List.mem_singleton] at hnw
      cases hb : (washSendLoop sendOk (enabledChannels settings uid) false
          "unknown" 0).1 <;> simp [hnw, hb]

theorem C6_witness :
    (wash_user 1000 [chNtfy] [] 7 [itemDirty] (fun _ => true)).1.length = 1 := by
  have h := C6_amended_wash_dedup 1000 [chNtfy] [] 7 [itemDirty] (fun _ => true)
    (by decide)
  exact (h.2 rfl).1

/-- Claim C7: a contended non-blocking per-record lock makes the retry
loop skip exactly that record and continue with the rest; a contended
global wash-reminders lock makes the job return the "skipped, lock held"
result (notified 0) rather than raise. -/
theorem C7_lock_contention_is_skip (now : Nat) (lockOf : Notification → LockResult)
    (refreshOf : Notification → Notification)
    (sendOf : Notification → DeliveryResult) (n : Notification)
    (rest : List Notification) (inner : WashReturn)
    (h : lockOf n = LockResult.contended) :
    retryLoop now lockOf refreshOf sendOf (n :: rest)
      = RetryOutcome.skippedLock :: retryLoop now lockOf refreshOf sendOf rest ∧
    check_wash_reminders LockResult.contended inner
      = JobTermination.returned { notified := 0, skipped := some "lock_held" } ∧
    (check_wash_reminders LockResult.contended inner).isRaised = false := by
  refine ⟨?_, rfl, rfl⟩
  simp [retryLoop, retryRecord, h]

theorem C7_witness :
    retryLoop 0 (fun _ => LockResult.contended) id
        (fun _ => ⟨DeliveryStatus.failed, none⟩) [nRetrying]
      = [RetryOutcome.skippedLock] ∧
    check_wash_reminders LockResult.contended ⟨4, none⟩
      = JobTermination.returned { notified := 0, skipped := some "lock_held" } := by
  have h := C7_lock_contention_is_skip 0 (fun _ => LockResult.contended) id
    (fun _ => ⟨DeliveryStatus.failed, none⟩) nRetrying [] ⟨4, none⟩ rfl
  exact ⟨h.1, h.2.1⟩

/-- Claim C8: when the outer job envelope is on its final attempt
(`job_try >= 3`), an unexpected failure of the per-schedule job nulls the
schedule's `last_triggered_at` (so no later tick sees it as recently
triggered) and still re-raises the error. -/
theorem C8_reset_on_final_failure (e : String) (jobTry : Nat) (db : List Schedule)
    (sid : Nat) (h : 3 ≤ jobTry) :
    (process_envelope jobTry db sid (Except.error e)).2
      = reset_schedule_trigger db sid ∧
    (∀ s ∈ (process_envelope jobTry db sid (Except.error e)).2,
        s.id = sid →
          s.last_triggered_at = none ∧ ∀ t, recentlyTriggered t s = false) ∧
    (process_envelope jobTry db sid (Except.error e)).1.rolledBack = true ∧
    (process_envelope jobTry db sid (Except.error e)).1.term
      = JobTermination.raised e := by
  refine ⟨by simp [process_envelope, h], ?_, rfl, rfl⟩
  intro s hs hid
  simp only [process_envelope, h, if_true, reset_schedule_trigger] at hs
  rcases List.mem_map.mp hs with ⟨a, _, rfl⟩
  by_cases ha : (a.id == sid) = true
  · simp [ha, recentlyTriggered]
  · rw [if_neg ha] at hid
    exact absurd hid (by simpa using ha)

theorem C8_witness :
    (process_envelope 3 [sTriggered] 1 (Except.error "down")).2
      = [{ sTriggered with last_triggered_at := none }] ∧
    (process_envelope 3 [sTriggered] 1 (Except.error "down")).1.term
      = JobTermination.raised "down" := by
  have h := C8_reset_on_final_failure "down" 3 [sTriggered] 1 (by decide)
  exact ⟨h.1.trans (by decide), h.2.2.2⟩

/-- Claim C9: with the lock acquired, a release that finds the lock
expired and reacquired elsewhere (`LockNotOwnedError`) only logs a warning
and leaves the guarded section's result untouched; with acquisition
failed, the distinguished timeout error is raised and no release is ever
attempted. -/
theorem C9_release_semantics (key : String) (rel : ReleaseResult)
    (body : Except String Nat) :
    (distributed_lock key true ReleaseResult.notOwned body).1 = body ∧
    (distributed_lock key true ReleaseResult.notOwned body).2
      = [LockEvent.releaseAttempt, LockEvent.warnLogged] ∧
    (distributed_lock key false rel body).2 = [] ∧
    (distributed_lock key false rel body).1
      = Except.error ("Could not acquire lock: " ++ key) :=
  ⟨rfl, rfl, rfl, rfl⟩

end Wardrowbe
